import Mathlib

/-!
Verification of the loan lifecycle and audit-log core of the
`tredgate-loan` repository: a shallow embedding of the Decision Rule,
the monthly-payment helper, the Audit Log Store and the Loan Store,
together with theorems settling the specification's claims.

Numbers: JavaScript numbers are embedded as rationals (`ℚ`); all the
claims here concern order comparisons and field arithmetic, on which
`ℚ` agrees with the idealised reals of the spec.
-/

/-- Loan status, from `src/types/loan.ts` (`LoanStatus`):
`'pending' | 'approved' | 'rejected'`. -/
inductive LoanStatus where
  | pending
  | approved
  | rejected
deriving DecidableEq

/-- Audit action, from `src/types/auditLog.ts` (`AuditAction`). -/
inductive AuditAction where
  | loan_created
  | status_changed
  | auto_decided
deriving DecidableEq

/-- Audit log entry, from `src/types/auditLog.ts` (`AuditLogEntry`).
Optional fields become `Option`. -/
structure AuditLogEntry where
  id : String
  timestamp : String
  action : AuditAction
  loanId : String
  previousStatus : Option LoanStatus
  newStatus : Option LoanStatus
  details : Option String
deriving DecidableEq

/-- Loan application record, from `src/types/loan.ts` (`LoanApplication`),
fields as listed in the spec's data model. -/
structure LoanApplication where
  id : String
  applicantName : String
  amount : ℚ
  termMonths : ℚ
  interestRate : ℚ
  status : LoanStatus
  createdAt : String
deriving DecidableEq

/-- Decision Rule, from `e2e/helpers/testHelpers.ts` (`shouldAutoApprove`):
`return amount <= 100000 && termMonths <= 60`. -/
def shouldAutoApprove (amount termMonths : ℚ) : Bool :=
  decide (amount ≤ 100000) && decide (termMonths ≤ 60)

/-- Monthly payment, from `e2e/helpers/testHelpers.ts`
(`calculateMonthlyPayment`): if the rate is zero, `amount / termMonths`;
otherwise `amount * (numerator / denominator)` with
`numerator = monthlyRate * (1 + monthlyRate) ^ termMonths` and
`denominator = (1 + monthlyRate) ^ termMonths - 1`,
where `monthlyRate = interestRate / 12`. -/
def calculateMonthlyPayment (amount : ℚ) (termMonths : ℕ) (interestRate : ℚ) : ℚ :=
  if interestRate = 0 then amount / termMonths
  else
    let monthlyRate := interestRate / 12
    let numerator := monthlyRate * (1 + monthlyRate) ^ termMonths
    let denominator := (1 + monthlyRate) ^ termMonths - 1
    amount * (numerator / denominator)

/-- The amortization formula exactly as the spec writes it:
`payment = amount * monthlyRate * (1+monthlyRate)^termMonths /
((1+monthlyRate)^termMonths - 1)`, with the zero-rate special case.
Stated from the spec's words, to be compared with
`calculateMonthlyPayment` from the source. -/
def specMonthlyPayment (amount : ℚ) (termMonths : ℕ) (interestRate : ℚ) : ℚ :=
  if interestRate = 0 then amount / termMonths
  else
    amount * (interestRate / 12) * (1 + interestRate / 12) ^ termMonths /
      ((1 + interestRate / 12) ^ termMonths - 1)

/-- A JSON value, the result type of the platform's `JSON.parse`. -/
inductive Json where
  | null
  | bool (b : Bool)
  | num (q : ℚ)
  | str (s : String)
  | arr (elems : List Json)
  | obj (fields : List (String × Json))

/-- From `src/services/auditLogService.ts` (`getAuditLogs`): reads the
string stored under the audit-log key (`stored : Option String`, with
`none` for an absent key). `if (!stored) return []` makes both an absent
and an empty stored string (JavaScript falsiness) yield the empty array;
a `JSON.parse` failure is caught and yields the empty array; otherwise
the parsed value is returned as-is — the `as AuditLogEntry[]` cast
performs no runtime validation. `JSON.parse` is the platform's parser,
injected as the function argument `parse`. -/
def getAuditLogs (parse : String → Option Json) (stored : Option String) : Json :=
  match stored with
  | none => Json.arr []
  | some s =>
    if s = "" then Json.arr []
    else
      match parse s with
      | none => Json.arr []
      | some v => v

/-- From `src/services/auditLogService.ts` (`getAuditLogsForLoan`):
`logs.filter(log => log.loanId === loanId)` over the stored entries. -/
def getAuditLogsForLoan (logs : List AuditLogEntry) (loanId : String) :
    List AuditLogEntry :=
  logs.filter (fun log => log.loanId == loanId)

/-- A status rendered as its TypeScript string literal, used in the
audit entries' `details` texts. -/
def LoanStatus.toText : LoanStatus → String
  | .pending => "pending"
  | .approved => "approved"
  | .rejected => "rejected"

/-- Input for creating a loan, from `src/types/loan.ts` as exercised by
the tests: `{applicantName, amount, termMonths, interestRate}`. -/
structure CreateLoanInput where
  applicantName : String
  amount : ℚ
  termMonths : ℚ
  interestRate : ℚ

/-- Modelled from the spec: `src/services/loanService.ts` is not in the
snapshot (only its tests and callers are). Spec §7, validation for
`create`: the applicant name must not be empty or whitespace-only
(that is, it must contain a non-whitespace character), amount > 0,
term > 0, interest rate ≥ 0. -/
def isValidInput (input : CreateLoanInput) : Bool :=
  input.applicantName.data.any (fun c => !c.isWhitespace) &&
    decide (0 < input.amount) &&
    decide (0 < input.termMonths) && decide (0 ≤ input.interestRate)

/-- The two collections owned by the Loan Store and the Audit Log Store
(spec §6): the arrays persisted under `tredgate_loans` and
`tredgate_audit_logs`. -/
structure LoanStoreState where
  loans : List LoanApplication
  logs : List AuditLogEntry
deriving DecidableEq

/-- Modelled from the spec: `src/services/loanService.ts` is not in the
snapshot. Spec §4.1, `create`: validate the input; on failure have no
effect (return nothing, persist nothing, log nothing); on success
assign `id` and `createdAt`, set `status = pending`, persist the loan,
and append one audit entry with `action = loan_created` and
`newStatus = pending` (its `details` mention the applicant, as the
tests require). The externally generated loan id, log id and timestamp
are parameters. -/
def createLoanApplication (input : CreateLoanInput)
    (newId logId ts : String) (s : LoanStoreState) :
    Option (LoanApplication × LoanStoreState) :=
  if isValidInput input then
    some
      ({ id := newId,
         applicantName := input.applicantName,
         amount := input.amount,
         termMonths := input.termMonths,
         interestRate := input.interestRate,
         status := .pending,
         createdAt := ts },
       { loans := s.loans ++
           [{ id := newId,
              applicantName := input.applicantName,
              amount := input.amount,
              termMonths := input.termMonths,
              interestRate := input.interestRate,
              status := .pending,
              createdAt := ts }],
         logs := s.logs ++
           [{ id := logId,
              timestamp := ts,
              action := .loan_created,
              loanId := newId,
              previousStatus := none,
              newStatus := some .pending,
              details := some ("Loan created for " ++
                input.applicantName) }] })
  else
    none

/-- Modelled from the spec: `src/services/loanService.ts` is not in the
snapshot. Spec §4.1, `updateStatus`: look the loan up by id; if absent,
silently do nothing; if present, record `previousStatus`, set the
status to `newStatus` (no check that the transition is legal), persist,
and append one audit entry with `action = status_changed`,
`previousStatus` and `newStatus`. -/
def updateLoanStatus (loanId : String) (newStatus : LoanStatus)
    (logId ts : String) (s : LoanStoreState) : LoanStoreState :=
  match s.loans.find? (fun l => l.id == loanId) with
  | none => s
  | some loan =>
    { loans := s.loans.map (fun l =>
        if l.id == loanId then { l with status := newStatus } else l),
      logs := s.logs ++
        [{ id := logId,
           timestamp := ts,
           action := .status_changed,
           loanId := loanId,
           previousStatus := some loan.status,
           newStatus := some newStatus,
           details := some ("Status changed from " ++
             loan.status.toText ++ " to " ++ newStatus.toText) }] }

/-- Modelled from the spec: `src/services/loanService.ts` is not in the
snapshot. Spec §4.1, `autoDecide`: look the loan up by id; if absent,
do nothing; if present, apply the Decision Rule to
`(amount, termMonths)` to pick `approved` or `rejected`, update the
status exactly as `updateStatus` would, and append one audit entry with
`action = auto_decided` instead of `status_changed`. -/
def autoDecideLoan (loanId : String) (logId ts : String)
    (s : LoanStoreState) : LoanStoreState :=
  match s.loans.find? (fun l => l.id == loanId) with
  | none => s
  | some loan =>
    let decided : LoanStatus :=
      if shouldAutoApprove loan.amount loan.termMonths then .approved
      else .rejected
    { loans := s.loans.map (fun l =>
        if l.id == loanId then { l with status := decided } else l),
      logs := s.logs ++
        [{ id := logId,
           timestamp := ts,
           action := .auto_decided,
           loanId := loanId,
           previousStatus := some loan.status,
           newStatus := some decided,
           details := some ("Auto-decided: " ++ decided.toText) }] }

/-- One Loan Store mutation, with the externally generated ids and
timestamps carried as data; used to quantify over "every operation of
the Loan Store". -/
inductive LoanOp where
  | create (input : CreateLoanInput) (newId logId ts : String)
  | update (loanId : String) (newStatus : LoanStatus) (logId ts : String)
  | autoDecide (loanId : String) (logId ts : String)

/-- Run one Loan Store operation against a state (a failed `create`
leaves the state unchanged). -/
def applyOp : LoanOp → LoanStoreState → LoanStoreState
  | .create input newId logId ts, s =>
    match createLoanApplication input newId logId ts s with
    | none => s
    | some (_, s') => s'
  | .update loanId newStatus logId ts, s =>
    updateLoanStatus loanId newStatus logId ts s
  | .autoDecide loanId logId ts, s => autoDecideLoan loanId logId ts s

/-- C1: `shouldAutoApprove amount termMonths` is true iff
`amount ≤ 100000 ∧ termMonths ≤ 60`; in particular `(100000, 60)`
approves while `(100001, 60)` and `(100000, 61)` reject. -/
theorem shouldAutoApprove_iff :
    (∀ amount termMonths : ℚ,
      shouldAutoApprove amount termMonths = true ↔
        (amount ≤ 100000 ∧ termMonths ≤ 60)) ∧
    shouldAutoApprove 100000 60 = true ∧
    shouldAutoApprove 100001 60 = false ∧
    shouldAutoApprove 100000 61 = false := by
  refine ⟨fun amount termMonths => ?_, by decide, by decide, by decide⟩
  simp [shouldAutoApprove]

/-- C6: for positive amount, positive integer term and nonnegative rate,
`calculateMonthlyPayment` agrees with the spec's amortization formula,
and at rate `0` it returns exactly `amount / termMonths`. -/
theorem calculateMonthlyPayment_eq_spec (amount : ℚ) (termMonths : ℕ)
    (interestRate : ℚ) (_hamount : 0 < amount) (_hterm : 0 < termMonths)
    (_hrate : 0 ≤ interestRate) :
    calculateMonthlyPayment amount termMonths interestRate =
      specMonthlyPayment amount termMonths interestRate ∧
    calculateMonthlyPayment amount termMonths 0 = amount / termMonths := by
  constructor
  · unfold calculateMonthlyPayment specMonthlyPayment
    by_cases h : interestRate = 0
    · simp [h]
    · simp only [h, if_false]
      rw [mul_div_assoc, mul_div_assoc, mul_assoc]
  · simp [calculateMonthlyPayment]

/-- Witness for C6 at `amount = 1200`, `termMonths = 1`,
`interestRate = 12`. -/
theorem calculateMonthlyPayment_eq_spec_witness :
    (0 : ℚ) < 1200 ∧ 0 < 1 ∧ (0 : ℚ) ≤ 12 ∧
    (calculateMonthlyPayment 1200 1 12 = specMonthlyPayment 1200 1 12 ∧
      calculateMonthlyPayment 1200 1 0 = 1200 / 1) := by
  refine ⟨by norm_num, by norm_num, by norm_num, ?_⟩
  exact calculateMonthlyPayment_eq_spec 1200 1 12 (by norm_num) (by norm_num)
    (by norm_num)

/-- C8: whenever the stored value under the audit-log key is absent,
empty, or fails to parse, `getAuditLogs` returns the empty collection
(and, being total, raises no error). -/
theorem getAuditLogs_recovery (parse : String → Option Json)
    (stored : Option String)
    (h : stored = none ∨ stored = some "" ∨
      ∃ s, stored = some s ∧ parse s = none) :
    getAuditLogs parse stored = Json.arr [] := by
  rcases h with h | h | ⟨s, h, hp⟩ <;> subst h
  · rfl
  · rfl
  · by_cases hs : s = "" <;> simp [getAuditLogs, hs, hp]

/-- Witness for C8: an unparseable stored string yields the empty
collection. -/
theorem getAuditLogs_recovery_witness :
    ((some "not json" : Option String) = none ∨
      (some "not json" : Option String) = some "" ∨
      ∃ s, (some "not json" : Option String) = some s ∧
        (fun _ : String => (none : Option Json)) s = none) ∧
    getAuditLogs (fun _ => none) (some "not json") = Json.arr [] := by
  refine ⟨Or.inr (Or.inr ⟨"not json", rfl, rfl⟩), ?_⟩
  exact getAuditLogs_recovery _ _ (Or.inr (Or.inr ⟨"not json", rfl, rfl⟩))

/-- C9: `getAuditLogsForLoan logs x` is a subsequence of `logs` (same
relative order), its members are exactly the entries of `logs` whose
`loanId` is `x`, and it has one element per such entry of `logs` (so no
entry with a different `loanId` appears and none with `loanId = x` is
dropped or duplicated). -/
theorem getAuditLogsForLoan_spec (logs : List AuditLogEntry) (x : String) :
    List.Sublist (getAuditLogsForLoan logs x) logs ∧
    (∀ e, e ∈ getAuditLogsForLoan logs x ↔ (e ∈ logs ∧ e.loanId = x)) ∧
    (getAuditLogsForLoan logs x).length =
      logs.countP (fun e => e.loanId == x) := by
  refine ⟨List.filter_sublist logs, fun e => ?_, ?_⟩
  · simp [getAuditLogsForLoan, List.mem_filter]
  · simp [getAuditLogsForLoan, List.countP_eq_length_filter]

/-- C10: when the stored string is nonempty and parses (to any JSON
value, array-shaped or not), `getAuditLogs` returns the parsed value
as-is: no shape validation is applied. -/
theorem getAuditLogs_no_validation (parse : String → Option Json)
    (s : String) (v : Json) (hs : s ≠ "") (hp : parse s = some v) :
    getAuditLogs parse (some s) = v := by
  simp [getAuditLogs, hs, hp]

/-- Witness for C10: a stored `"5"` parsing to the JSON number 5 is
returned as-is, which is not the empty collection. -/
theorem getAuditLogs_no_validation_witness :
    "5" ≠ "" ∧
    getAuditLogs (fun _ => some (Json.num 5)) (some "5") = Json.num 5 ∧
    Json.num 5 ≠ Json.arr [] := by
  refine ⟨by decide, ?_, fun h => Json.noConfusion h⟩
  exact getAuditLogs_no_validation (fun _ => some (Json.num 5)) "5"
    (Json.num 5) (by decide) rfl

/-- Looking a loan up by id after the status-update pass: the map that
rewrites the status of every id-matching loan turns the first match
into the same record with the new status. -/
theorem find?_status_update (loans : List LoanApplication)
    (loanId : String) (st : LoanStatus) (loan : LoanApplication)
    (h : loans.find? (fun l => l.id == loanId) = some loan) :
    List.find? (fun l => l.id == loanId)
      (loans.map (fun l =>
        if l.id == loanId then { l with status := st } else l)) =
      some { loan with status := st } := by
  have hl :=
    @List.find?_some LoanApplication (fun l => l.id == loanId) loan loans h
  rw [List.find?_map]
  have hp : ((fun l : LoanApplication => l.id == loanId) ∘
      (fun l : LoanApplication =>
        if l.id == loanId then { l with status := st } else l)) =
      fun l : LoanApplication => l.id == loanId := by
    funext l
    by_cases hc : (l.id == loanId) = true <;> simp [Function.comp, hc]
  rw [hp, h]
  have hl2 : (loan.id == loanId) = true := hl
  simp [eq_of_beq hl2]

/-- C2: on a valid input and a fresh id, `createLoanApplication`
returns a `pending` loan whose id differs from every loan already in
the store, appends exactly that loan, and appends exactly one audit
entry with `action = loan_created`, the created loan's id, and
`newStatus = pending`. -/
theorem createLoanApplication_spec (input : CreateLoanInput)
    (newId logId ts : String) (s : LoanStoreState)
    (hv : isValidInput input = true)
    (hfresh : ∀ l ∈ s.loans, l.id ≠ newId) :
    ∃ loan s2,
      createLoanApplication input newId logId ts s = some (loan, s2) ∧
      loan.status = .pending ∧
      (∀ l ∈ s.loans, l.id ≠ loan.id) ∧
      s2.loans = s.loans ++ [loan] ∧
      ∃ e, s2.logs = s.logs ++ [e] ∧ e.action = .loan_created ∧
        e.loanId = loan.id ∧ e.newStatus = some .pending := by
  unfold createLoanApplication
  rw [if_pos hv]
  exact ⟨_, _, rfl, rfl, hfresh, rfl, _, rfl, rfl, rfl, rfl⟩

/-- Witness for C2: creating a loan for Alice Smith in the empty
store. -/
theorem createLoanApplication_spec_witness :
    isValidInput
      { applicantName := "Alice Smith", amount := 25000,
        termMonths := 12, interestRate := 0 } = true ∧
    (∀ l ∈ (LoanStoreState.mk [] []).loans, l.id ≠ "loan-1") ∧
    (∃ loan s2,
      createLoanApplication
        { applicantName := "Alice Smith", amount := 25000,
          termMonths := 12, interestRate := 0 }
        "loan-1" "audit-1" "2024-01-01T00:00:00.000Z"
        (LoanStoreState.mk [] []) = some (loan, s2) ∧
      loan.status = .pending ∧
      (∀ l ∈ (LoanStoreState.mk [] []).loans, l.id ≠ loan.id) ∧
      s2.loans = (LoanStoreState.mk [] []).loans ++ [loan] ∧
      ∃ e, s2.logs = (LoanStoreState.mk [] []).logs ++ [e] ∧
        e.action = .loan_created ∧ e.loanId = loan.id ∧
        e.newStatus = some .pending) := by
  refine ⟨by decide, by simp, ?_⟩
  exact createLoanApplication_spec
    { applicantName := "Alice Smith", amount := 25000,
      termMonths := 12, interestRate := 0 }
    "loan-1" "audit-1" "2024-01-01T00:00:00.000Z"
    (LoanStoreState.mk [] []) (by decide) (by simp)

/-- C3: updating a loan that is found by id and is `pending` to
`approved` appends exactly one audit entry with
`action = status_changed`, `previousStatus = pending` and
`newStatus = approved`, and looking the loan up by that id afterwards
yields it with status `approved`. -/
theorem updateLoanStatus_spec (loanId logId ts : String)
    (s : LoanStoreState) (loan : LoanApplication)
    (hfind : s.loans.find? (fun l => l.id == loanId) = some loan)
    (hpending : loan.status = .pending) :
    ∃ e, (updateLoanStatus loanId .approved logId ts s).logs =
        s.logs ++ [e] ∧
      e.action = .status_changed ∧
      e.previousStatus = some .pending ∧
      e.newStatus = some .approved ∧
      (updateLoanStatus loanId .approved logId ts s).loans.find?
        (fun l => l.id == loanId) =
        some { loan with status := .approved } := by
  unfold updateLoanStatus
  rw [hfind]
  refine ⟨_, rfl, rfl, ?_, rfl, ?_⟩
  · rw [hpending]
  · exact find?_status_update s.loans loanId .approved loan hfind

/-- Witness for C3: approving Bob's pending loan in a one-loan store. -/
theorem updateLoanStatus_spec_witness :
    (LoanStoreState.mk
        [{ id := "L1", applicantName := "Bob", amount := 50000,
           termMonths := 24, interestRate := 0, status := .pending,
           createdAt := "t0" }] []).loans.find?
      (fun l => l.id == "L1") =
      some
        { id := "L1", applicantName := "Bob", amount := 50000,
          termMonths := 24, interestRate := 0, status := .pending,
          createdAt := "t0" } ∧
    (LoanStatus.pending = LoanStatus.pending) ∧
    ∃ e, (updateLoanStatus "L1" .approved "A1" "t1"
        (LoanStoreState.mk
          [{ id := "L1", applicantName := "Bob", amount := 50000,
             termMonths := 24, interestRate := 0, status := .pending,
             createdAt := "t0" }] [])).logs =
      (LoanStoreState.mk
        [{ id := "L1", applicantName := "Bob", amount := 50000,
           termMonths := 24, interestRate := 0, status := .pending,
           createdAt := "t0" }] []).logs ++ [e] ∧
      e.action = .status_changed ∧
      e.previousStatus = some .pending ∧
      e.newStatus = some .approved ∧
      (updateLoanStatus "L1" .approved "A1" "t1"
        (LoanStoreState.mk
          [{ id := "L1", applicantName := "Bob", amount := 50000,
             termMonths := 24, interestRate := 0, status := .pending,
             createdAt := "t0" }] [])).loans.find?
        (fun l => l.id == "L1") =
        some
          { id := "L1", applicantName := "Bob", amount := 50000,
            termMonths := 24, interestRate := 0, status := .approved,
            createdAt := "t0" } := by
  refine ⟨rfl, rfl, ?_⟩
  exact updateLoanStatus_spec "L1" "A1" "t1"
    (LoanStoreState.mk
      [{ id := "L1", applicantName := "Bob", amount := 50000,
         termMonths := 24, interestRate := 0, status := .pending,
         createdAt := "t0" }] [])
    { id := "L1", applicantName := "Bob", amount := 50000,
      termMonths := 24, interestRate := 0, status := .pending,
      createdAt := "t0" } rfl rfl

/-- C4: on a loan found by id, `autoDecideLoan` updates the loans
collection exactly as `updateLoanStatus` would with the decided status
(`approved` when `shouldAutoApprove` holds of the loan's amount and
term, `rejected` otherwise) and appends exactly one audit entry with
`action = auto_decided` (not `status_changed`) carrying that decided
status. -/
theorem autoDecideLoan_spec (loanId logId ts : String)
    (s : LoanStoreState) (loan : LoanApplication)
    (hfind : s.loans.find? (fun l => l.id == loanId) = some loan) :
    (autoDecideLoan loanId logId ts s).loans =
      (updateLoanStatus loanId
        (if shouldAutoApprove loan.amount loan.termMonths then .approved
          else .rejected) logId ts s).loans ∧
    ∃ e, (autoDecideLoan loanId logId ts s).logs = s.logs ++ [e] ∧
      e.action = .auto_decided ∧
      e.previousStatus = some loan.status ∧
      e.newStatus = some (if shouldAutoApprove loan.amount loan.termMonths
        then LoanStatus.approved else LoanStatus.rejected) := by
  unfold autoDecideLoan updateLoanStatus
  rw [hfind]
  exact ⟨rfl, _, rfl, rfl, rfl, rfl⟩

/-- Witness for C4: auto-deciding Eve's loan (amount 150000, term 72)
rejects it and logs an `auto_decided` entry. -/
theorem autoDecideLoan_spec_witness :
    (if shouldAutoApprove 150000 72 then LoanStatus.approved
      else LoanStatus.rejected) = LoanStatus.rejected ∧
    (LoanStoreState.mk
        [{ id := "L2", applicantName := "Eve", amount := 150000,
           termMonths := 72, interestRate := 0, status := .pending,
           createdAt := "t0" }] []).loans.find?
      (fun l => l.id == "L2") =
      some
        { id := "L2", applicantName := "Eve", amount := 150000,
          termMonths := 72, interestRate := 0, status := .pending,
          createdAt := "t0" } ∧
    ((autoDecideLoan "L2" "A2" "t2"
        (LoanStoreState.mk
          [{ id := "L2", applicantName := "Eve", amount := 150000,
             termMonths := 72, interestRate := 0, status := .pending,
             createdAt := "t0" }] [])).loans =
      (updateLoanStatus "L2"
        (if shouldAutoApprove 150000 72 then .approved else .rejected)
        "A2" "t2"
        (LoanStoreState.mk
          [{ id := "L2", applicantName := "Eve", amount := 150000,
             termMonths := 72, interestRate := 0, status := .pending,
             createdAt := "t0" }] [])).loans ∧
     ∃ e, (autoDecideLoan "L2" "A2" "t2"
        (LoanStoreState.mk
          [{ id := "L2", applicantName := "Eve", amount := 150000,
             termMonths := 72, interestRate := 0, status := .pending,
             createdAt := "t0" }] [])).logs =
        (LoanStoreState.mk
          [{ id := "L2", applicantName := "Eve", amount := 150000,
             termMonths := 72, interestRate := 0, status := .pending,
             createdAt := "t0" }] []).logs ++ [e] ∧
      e.action = .auto_decided ∧
      e.previousStatus = some .pending ∧
      e.newStatus = some (if shouldAutoApprove 150000 72
        then LoanStatus.approved else LoanStatus.rejected)) := by
  refine ⟨by decide, rfl, ?_⟩
  exact autoDecideLoan_spec "L2" "A2" "t2"
    (LoanStoreState.mk
      [{ id := "L2", applicantName := "Eve", amount := 150000,
         termMonths := 72, interestRate := 0, status := .pending,
         createdAt := "t0" }] [])
    { id := "L2", applicantName := "Eve", amount := 150000,
      termMonths := 72, interestRate := 0, status := .pending,
      createdAt := "t0" } rfl

/-- C5 counterexample: `updateStatus` changes the status of a loan that
is already `approved` (to `rejected`) — a status change whose prior
status is not `pending`. The repository's own test "tracks multiple
status changes" exercises exactly this double transition. -/
theorem update_from_terminal_counterexample :
    ((applyOp (.update "L1" .rejected "A1" "t1")
        (LoanStoreState.mk
          [{ id := "L1", applicantName := "Ann", amount := 1,
             termMonths := 1, interestRate := 0, status := .approved,
             createdAt := "t0" }] [])).loans.map
      (fun l => l.status)) = [.rejected] ∧
    LoanStatus.approved ≠ LoanStatus.pending := by
  exact ⟨rfl, by decide⟩

/-- C5 (amended): whenever a Loan Store operation changes the status of
the loan at some position, the loan's id is unchanged and the operation
was `updateStatus` with that loan's id (installing exactly the requested
status) or `autoDecide` with that loan's id (installing `approved` or
`rejected`); the prior status need not be `pending` — transitions out
of `approved`/`rejected` are not prevented. -/
theorem status_change_characterization (op : LoanOp) (s : LoanStoreState)
    (i : ℕ) (l l2 : LoanApplication)
    (hbefore : s.loans[i]? = some l)
    (hafter : (applyOp op s).loans[i]? = some l2)
    (hchange : l2.status ≠ l.status) :
    l2.id = l.id ∧
    ((∃ st logId ts, op = .update l.id st logId ts ∧ l2.status = st) ∨
     (∃ logId ts, op = .autoDecide l.id logId ts ∧
       (l2.status = .approved ∨ l2.status = .rejected))) := by
  cases op with
  | create input newId logId ts =>
    exfalso
    apply hchange
    simp only [applyOp] at hafter
    cases hc : createLoanApplication input newId logId ts s with
    | none =>
      rw [hc] at hafter
      rw [hbefore] at hafter
      injection hafter with h2
      rw [h2]
    | some pair =>
      rw [hc] at hafter
      unfold createLoanApplication at hc
      by_cases hv : isValidInput input = true
      · rw [if_pos hv] at hc
        injection hc with hc
        rw [← hc] at hafter
        have hi : i < s.loans.length := by
          rcases List.getElem?_eq_some_iff.mp hbefore with ⟨hi, _⟩
          exact hi
        rw [List.getElem?_append_left hi] at hafter
        rw [hbefore] at hafter
        injection hafter with h2
        rw [h2]
      · rw [if_neg hv] at hc
        exact Option.noConfusion hc
  | update loanId st logId ts =>
    simp only [applyOp] at hafter
    unfold updateLoanStatus at hafter
    cases hf : s.loans.find? (fun x => x.id == loanId) with
    | none =>
      rw [hf] at hafter
      exfalso
      apply hchange
      rw [hbefore] at hafter
      injection hafter with h2
      rw [h2]
    | some loan0 =>
      rw [hf] at hafter
      rw [List.getElem?_map, hbefore] at hafter
      simp only [Option.map_some'] at hafter
      injection hafter with h2
      by_cases hcond : (l.id == loanId) = true
      · rw [if_pos hcond] at h2
        constructor
        · rw [← h2]
        · exact Or.inl ⟨st, logId, ts, by rw [eq_of_beq hcond], by rw [← h2]⟩
      · rw [if_neg hcond] at h2
        exfalso
        apply hchange
        rw [← h2]
  | autoDecide loanId logId ts =>
    simp only [applyOp] at hafter
    unfold autoDecideLoan at hafter
    cases hf : s.loans.find? (fun x => x.id == loanId) with
    | none =>
      rw [hf] at hafter
      exfalso
      apply hchange
      rw [hbefore] at hafter
      injection hafter with h2
      rw [h2]
    | some loan0 =>
      rw [hf] at hafter
      rw [List.getElem?_map, hbefore] at hafter
      simp only [Option.map_some'] at hafter
      injection hafter with h2
      by_cases hcond : (l.id == loanId) = true
      · rw [if_pos hcond] at h2
        constructor
        · rw [← h2]
        · refine Or.inr ⟨logId, ts, by rw [eq_of_beq hcond], ?_⟩
          rw [← h2]
          by_cases hsa :
              shouldAutoApprove loan0.amount loan0.termMonths = true
          · exact Or.inl (by simp [hsa])
          · exact Or.inr (by simp [hsa])
      · rw [if_neg hcond] at h2
        exfalso
        apply hchange
        rw [← h2]

/-- Witness for C5 (amended): approving Ann's pending loan changes its
status through an `update` operation carrying that loan's id. -/
theorem status_change_characterization_witness :
    (LoanStoreState.mk
        [{ id := "L1", applicantName := "Ann", amount := 1,
           termMonths := 1, interestRate := 0, status := .pending,
           createdAt := "t0" }] []).loans[0]? =
      some
        { id := "L1", applicantName := "Ann", amount := 1,
          termMonths := 1, interestRate := 0, status := .pending,
          createdAt := "t0" } ∧
    (applyOp (.update "L1" .approved "A1" "t1")
        (LoanStoreState.mk
          [{ id := "L1", applicantName := "Ann", amount := 1,
             termMonths := 1, interestRate := 0, status := .pending,
             createdAt := "t0" }] [])).loans[0]? =
      some
        { id := "L1", applicantName := "Ann", amount := 1,
          termMonths := 1, interestRate := 0, status := .approved,
          createdAt := "t0" } ∧
    LoanStatus.approved ≠ LoanStatus.pending ∧
    ((("L1" : String) = "L1") ∧
     ((∃ st logId ts, (LoanOp.update "L1" .approved "A1" "t1") =
          .update "L1" st logId ts ∧ LoanStatus.approved = st) ∨
      (∃ logId ts, (LoanOp.update "L1" .approved "A1" "t1") =
          .autoDecide "L1" logId ts ∧
        (LoanStatus.approved = .approved ∨
          LoanStatus.approved = .rejected)))) := by
  refine ⟨rfl, rfl, by decide, ?_⟩
  exact status_change_characterization
    (.update "L1" .approved "A1" "t1")
    (LoanStoreState.mk
      [{ id := "L1", applicantName := "Ann", amount := 1,
         termMonths := 1, interestRate := 0, status := .pending,
         createdAt := "t0" }] []) 0
    { id := "L1", applicantName := "Ann", amount := 1,
      termMonths := 1, interestRate := 0, status := .pending,
      createdAt := "t0" }
    { id := "L1", applicantName := "Ann", amount := 1,
      termMonths := 1, interestRate := 0, status := .approved,
      createdAt := "t0" }
    rfl rfl (by decide)

/-- C7: when no loan in the store has the given id, `updateLoanStatus`
and `autoDecideLoan` are no-ops: the state (loan collection and audit
log alike) is returned unchanged, and no error is signalled — both
functions are total and return the state itself. -/
theorem missing_loan_noop (loanId : String) (newStatus : LoanStatus)
    (logId ts : String) (s : LoanStoreState)
    (habsent : ∀ l ∈ s.loans, l.id ≠ loanId) :
    updateLoanStatus loanId newStatus logId ts s = s ∧
    autoDecideLoan loanId logId ts s = s := by
  have hf : s.loans.find? (fun l => l.id == loanId) = none := by
    rw [List.find?_eq_none]
    intro l hl
    simp [habsent l hl]
  constructor
  · unfold updateLoanStatus
    rw [hf]
  · unfold autoDecideLoan
    rw [hf]

/-- Witness for C7: updating or auto-deciding an id that is not in the
store leaves the store untouched. -/
theorem missing_loan_noop_witness :
    (∀ l ∈ (LoanStoreState.mk
        [{ id := "L1", applicantName := "Ann", amount := 1,
           termMonths := 1, interestRate := 0, status := .pending,
           createdAt := "t0" }] []).loans, l.id ≠ "L9") ∧
    (updateLoanStatus "L9" .approved "A1" "t1"
        (LoanStoreState.mk
          [{ id := "L1", applicantName := "Ann", amount := 1,
             termMonths := 1, interestRate := 0, status := .pending,
             createdAt := "t0" }] []) =
      LoanStoreState.mk
        [{ id := "L1", applicantName := "Ann", amount := 1,
           termMonths := 1, interestRate := 0, status := .pending,
           createdAt := "t0" }] [] ∧
     autoDecideLoan "L9" "A1" "t1"
        (LoanStoreState.mk
          [{ id := "L1", applicantName := "Ann", amount := 1,
             termMonths := 1, interestRate := 0, status := .pending,
             createdAt := "t0" }] []) =
      LoanStoreState.mk
        [{ id := "L1", applicantName := "Ann", amount := 1,
           termMonths := 1, interestRate := 0, status := .pending,
           createdAt := "t0" }] []) := by
  refine ⟨by decide, ?_⟩
  exact missing_loan_noop "L9" .approved "A1" "t1"
    (LoanStoreState.mk
      [{ id := "L1", applicantName := "Ann", amount := 1,
         termMonths := 1, interestRate := 0, status := .pending,
         createdAt := "t0" }] []) (by decide)
